import Mathlib

/-!
Shallow embedding of the Waxy Timer activity-attribution core
(src/main_v1_0_2.py): target-window resolution
(MainWindow._refresh_windows / _select_best_default_target), the
hit tester (hwnd_is_target_or_child), the timer model (ActivityTimer)
and the input-hook event handlers of InputHookController._run
(on_key_press / on_click).

OS interactions are modelled as explicit parameters: the parent and
root-ancestor queries as an environment of partial functions (none =
the query raises), the foreground window and the point-to-window
result as plain arguments, and the wall clock as a rational `now`
passed to each operation.
-/

/-- Lowercasing of a string, character by character, modelling Python
str.lower as applied to window titles. -/
def lowerStr (s : String) : String := ⟨s.data.map Char.toLower⟩

/-- Whether the first character list starts the second one. -/
def startsWithL : List Char → List Char → Bool
  | [], _ => true
  | _ :: _, [] => false
  | a :: as, b :: bs => a == b && startsWithL as bs

/-- Whether pat occurs contiguously inside s, modelling Python `pat in s`. -/
def hasSubL (pat : List Char) : List Char → Bool
  | [] => startsWithL pat []
  | c :: rest => startsWithL pat (c :: rest) || hasSubL pat rest

/-- `strHasSub s pat` models the Python expression `pat in s` on strings. -/
def strHasSub (s pat : String) : Bool := hasSubL pat.data s.data

/-- The browser brand substrings tested in
MainWindow._select_best_default_target (and _save_persistent_state). -/
def BROWSER_BRANDS : List String :=
  ["chrome", "edge", "firefox", "brave", "opera", "vivaldi"]

/-- The primary marker string identifying the target application. -/
def MARKER : String := "2004scape game"

/-- The lowercased title contains the primary marker string. -/
def titleHasMarker (title : String) : Bool := strHasSub (lowerStr title) MARKER

/-- The lowercased title contains some browser brand substring. -/
def titleHasBrand (title : String) : Bool :=
  BROWSER_BRANDS.any (fun b => strHasSub (lowerStr title) b)

/-- Rule-1 predicate of _select_best_default_target: the title carries the
marker and no browser brand substring. -/
def markerNonBrowser (title : String) : Bool :=
  titleHasMarker title && !titleHasBrand title

/-- MainWindow._select_best_default_target on a directory snapshot (the
combo items as (handle, title) pairs, in list order) and the lowercased
preferred-window hint; returns the chosen handle, 0 when the snapshot is
empty (the code then calls set_target_hwnd(0)). -/
def select_best_default_target (snapshot : List (Nat × String)) (hint : String) : Nat :=
  match snapshot with
  | [] => 0
  | first :: _ =>
    match snapshot.find? (fun e => markerNonBrowser e.2) with
    | some e => e.1
    | none =>
      match (if hint = "" then none
             else snapshot.find? (fun e => strHasSub (lowerStr e.2) hint)) with
      | some e => e.1
      | none =>
        match snapshot.find? (fun e => titleHasMarker e.2) with
        | some e => e.1
        | none => first.1

/-- The target-selection logic of MainWindow._refresh_windows: the
previously selected handle, when nonzero and still listed in the fresh
snapshot, is kept (the loop sets the combo back to it and returns);
otherwise _select_best_default_target runs. -/
def refresh_windows_resolve (snapshot : List (Nat × String)) (prev : Nat)
    (hint : String) : Nat :=
  if prev ≠ 0 ∧ snapshot.any (fun e => e.1 == prev) then prev
  else select_best_default_target snapshot hint

/-- TimerConfig of main_v1_0_2.py (volume kept as a rational in 0..1). -/
structure TimerConfig where
  length_seconds : Int
  threshold_seconds : Int
  count_below_zero : Bool
  sound_threshold_seconds : Int
  sound_file_rel : String
  volume : ℚ
deriving Repr, DecidableEq

/-- The mutable state of ActivityTimer: its config, the stored target
handle, and the last-activity timestamp. -/
structure ActivityTimer where
  config : TimerConfig
  target_hwnd : Nat
  last_activity_ts : ℚ
deriving Repr, DecidableEq

/-- ActivityTimer.set_target_hwnd: stores int(hwnd) when hwnd is truthy,
else 0. -/
def ActivityTimer.set_target_hwnd (s : ActivityTimer) (hwnd : Nat) : ActivityTimer :=
  { s with target_hwnd := if hwnd = 0 then 0 else hwnd }

/-- ActivityTimer.reset_to_full: sets the last-activity timestamp to now. -/
def ActivityTimer.reset_to_full (s : ActivityTimer) (now : ℚ) : ActivityTimer :=
  { s with last_activity_ts := now }

/-- ActivityTimer.note_activity: sets the last-activity timestamp to now. -/
def ActivityTimer.note_activity (s : ActivityTimer) (now : ℚ) : ActivityTimer :=
  { s with last_activity_ts := now }

/-- ActivityTimer.remaining_seconds: length minus elapsed, clamped to 0
when count_below_zero is off; returned with the (unchanged) state to make
it explicit that the read has no side effects. -/
def ActivityTimer.remaining_seconds (s : ActivityTimer) (now : ℚ) :
    ℚ × ActivityTimer :=
  let elapsed := now - s.last_activity_ts
  let remaining := (s.config.length_seconds : ℚ) - elapsed
  (if s.config.count_below_zero then remaining else max 0 remaining, s)

/-- The OS windowing queries used by the hit tester: GetParent and
GetAncestor(GA_ROOT); none models the call raising. -/
structure WinEnv where
  parent : Nat → Option Nat
  rootAncestor : Nat → Option Nat

/-- The parent-chain walk inside hwnd_is_target_or_child: starting from
cur, repeatedly query the parent while cur is nonzero; a raised query ends
the walk; reaching target returns true. The fuel bounds the walk (the
Python loop terminates because real parent chains are acyclic). -/
def parentChainHits (env : WinEnv) : Nat → Nat → Nat → Bool
  | 0, _, _ => false
  | fuel + 1, cur, target =>
    if cur = 0 then false
    else
      match env.parent cur with
      | none => false
      | some p => if p = target then true else parentChainHits env fuel p target

/-- hwnd_is_target_or_child: false when either handle is falsy; true on
equality; true when the parent-chain walk reaches the target; otherwise
compare root ancestors (a raising GetAncestor yields false via the
except branch), true when both are truthy and equal. -/
def hwnd_is_target_or_child (env : WinEnv) (fuel : Nat)
    (clicked_hwnd target_hwnd : Nat) : Bool :=
  if clicked_hwnd = 0 ∨ target_hwnd = 0 then false
  else if clicked_hwnd = target_hwnd then true
  else if parentChainHits env fuel clicked_hwnd target_hwnd then true
  else
    match env.rootAncestor clicked_hwnd with
    | none => false
    | some clicked_root =>
      match env.rootAncestor target_hwnd with
      | none => false
      | some target_root =>
        clicked_root != 0 && target_root != 0 && clicked_root == target_root

/-- The four-step reference algorithm stated by the spec for
HitTester.belongsToTarget after point resolution, written from the wording of
the spec for a refinement comparison: equality, then the parent-chain walk,
then the nonzero root-ancestor comparison, else false. -/
def belongsToTargetRef (env : WinEnv) (fuel : Nat) (clicked target : Nat) : Bool :=
  if clicked = target then true
  else if parentChainHits env fuel clicked target then true
  else
    match env.rootAncestor clicked with
    | none => false
    | some clicked_root =>
      match env.rootAncestor target with
      | none => false
      | some target_root =>
        clicked_root != 0 && target_root != 0 && clicked_root == target_root

/-- InputHookController._run.on_key_press: read the current target; a zero
target ignores the event; otherwise note activity exactly when the OS
foreground window equals the target. The Bool records whether
note_activity was invoked. -/
def on_key_press (s : ActivityTimer) (fg : Nat) (now : ℚ) :
    ActivityTimer × Bool :=
  if s.target_hwnd = 0 then (s, false)
  else if fg = s.target_hwnd then (s.note_activity now, true)
  else (s, false)

/-- InputHookController._run.on_click: non-press transitions are ignored;
a zero target ignores the event; a raising WindowFromPoint (wfp = none)
returns with no effect; otherwise note activity exactly when
hwnd_is_target_or_child accepts the resolved window. -/
def on_click (env : WinEnv) (fuel : Nat) (s : ActivityTimer) (pressed : Bool)
    (wfp : Option Nat) (now : ℚ) : ActivityTimer × Bool :=
  if !pressed then (s, false)
  else if s.target_hwnd = 0 then (s, false)
  else
    match wfp with
    | none => (s, false)
    | some w =>
      if hwnd_is_target_or_child env fuel w s.target_hwnd then
        (s.note_activity now, true)
      else (s, false)

/-- The raw input events the hook callbacks receive, with their OS query
results attached (foreground window for a key press; the point-to-window
outcome for a click). -/
inductive InputEvent where
  | keyPress (fg : Nat)
  | click (pressed : Bool) (wfp : Option Nat)
deriving Repr, DecidableEq

/-- Dispatch of one raw event to the matching hook callback. -/
def processEvent (env : WinEnv) (fuel : Nat) (s : ActivityTimer) :
    InputEvent → ℚ → ActivityTimer × Bool
  | InputEvent.keyPress fg, now => on_key_press s fg now
  | InputEvent.click pressed wfp, now => on_click env fuel s pressed wfp now

/-- Processing of a sequence of timestamped events, threading the timer
state. -/
def processEvents (env : WinEnv) (fuel : Nat) :
    ActivityTimer → List (InputEvent × ℚ) → ActivityTimer
  | s, [] => s
  | s, (e, t) :: rest => processEvents env fuel (processEvent env fuel s e t).1 rest


/-! Concrete instances used by counterexamples and witnesses. -/

/-- A sorted directory snapshot holding the native marker window (handle 1)
and a browser tab with a similar title (handle 2). -/
def snapC1 : List (Nat × String) :=
  [(1, "2004scape Game"), (2, "2004Scape Game - Google Chrome")]

/-- A simple windowing environment: every window is a root (parent query
returns 0) and every root-ancestor query returns 0. -/
def envC4 : WinEnv := ⟨fun _ => some 0, fun _ => some 0⟩

/-- The default timer configuration of main_v1_0_2.py. -/
def cfg90 : TimerConfig := ⟨90, 15, true, 15, "", 1 / 2⟩

/-- A timer state targeting window 7. -/
def timer7 : ActivityTimer := ⟨cfg90, 7, 0⟩

/-- A timer state with a zero (suspended) target. -/
def timer0 : ActivityTimer := ⟨cfg90, 0, 0⟩

/-- Claim C1, counterexample: in snapC1 the marker window (handle 1) is a
marker-title non-browser window and previousHandle 2 is still present, yet
the resolver returns handle 2, whose title carries a browser brand — the
marker rule does not outrank the previous selection. -/
theorem C1_marker_priority_counterexample :
    (∃ e ∈ snapC1, markerNonBrowser e.2 = true)
    ∧ (∃ e ∈ snapC1, e.1 = 2)
    ∧ ¬ (∃ e ∈ snapC1, refresh_windows_resolve snapC1 2 "" = e.1 ∧
          markerNonBrowser e.2 = true) := by decide

/-- Claim C1, amended: when previousHandle is zero or absent from the
snapshot, a snapshot containing a marker-title non-browser window makes
the resolver select such a window. -/
theorem C1_marker_priority_amended (snapshot : List (Nat × String))
    (prev : Nat) (hint : String)
    (hprev : prev = 0 ∨ ∀ e ∈ snapshot, e.1 ≠ prev)
    (hex : ∃ e ∈ snapshot, markerNonBrowser e.2 = true) :
    ∃ e ∈ snapshot, refresh_windows_resolve snapshot prev hint = e.1 ∧
      markerNonBrowser e.2 = true := by
  have hguard : ¬ (prev ≠ 0 ∧ snapshot.any (fun e => e.1 == prev) = true) := by
    rcases hprev with h | h
    · exact fun hc => hc.1 h
    · intro hc
      obtain ⟨e, he, hbe⟩ := List.any_eq_true.mp hc.2
      exact h e he (by simpa using hbe)
  obtain ⟨w, hw, hmw⟩ := hex
  cases snapshot with
  | nil => cases hw
  | cons first rest =>
    unfold refresh_windows_resolve
    rw [if_neg hguard]
    cases hfind : (first :: rest).find? (fun e => markerNonBrowser e.2) with
    | none =>
      exact absurd hmw (List.find?_eq_none.mp hfind w hw)
    | some e =>
      refine ⟨e, List.mem_of_find?_eq_some hfind, ?_,
        by simpa using List.find?_some hfind⟩
      simp only [select_best_default_target]
      rw [hfind]

/-- Claim C1, witness for the amended theorem: with no previous handle, the
resolver picks the native marker window of snapC1. -/
theorem C1_marker_priority_amended_witness :
    ∃ e ∈ snapC1, refresh_windows_resolve snapC1 0 "" = e.1 ∧
      markerNonBrowser e.2 = true :=
  C1_marker_priority_amended snapC1 0 "" (Or.inl rfl) (by decide)

/-- Claim C2: a nonzero previousHandle still present in the snapshot is
returned by the resolver, whatever else the snapshot contains (directory
snapshots never list handle 0, which the nonzero-handles hypothesis
records). -/
theorem C2_resolver_stickiness (snapshot : List (Nat × String)) (prev : Nat)
    (hint : String) (hwf : ∀ e ∈ snapshot, e.1 ≠ 0)
    (hmem : ∃ e ∈ snapshot, e.1 = prev) :
    refresh_windows_resolve snapshot prev hint = prev := by
  obtain ⟨e, he, hp⟩ := hmem
  have hne : prev ≠ 0 := hp ▸ hwf e he
  have hany : snapshot.any (fun x => x.1 == prev) = true :=
    List.any_eq_true.mpr ⟨e, he, by simp [hp]⟩
  unfold refresh_windows_resolve
  rw [if_pos ⟨hne, hany⟩]

/-- Claim C2, witness: previousHandle 2 (the browser tab) stays selected in
snapC1 although the marker window is listed. -/
theorem C2_resolver_stickiness_witness :
    refresh_windows_resolve snapC1 2 "" = 2 :=
  C2_resolver_stickiness snapC1 2 "" (by decide) (by decide)

/-- Claim C3: remaining_seconds returns L - (now - ts) when
count_below_zero is on and max 0 (L - (now - ts)) when it is off, leaves
the state (hence the stored timestamp) unchanged, and a later read with
count_below_zero re-enabled computes the true value from the original
timestamp. -/
theorem C3_remaining_seconds_spec (cfg : TimerConfig) (tgt : Nat)
    (ts now now2 : ℚ) (_h : ts ≤ now) :
    ((ActivityTimer.remaining_seconds ⟨cfg, tgt, ts⟩ now).1
        = if cfg.count_below_zero then (cfg.length_seconds : ℚ) - (now - ts)
          else max 0 ((cfg.length_seconds : ℚ) - (now - ts)))
    ∧ (ActivityTimer.remaining_seconds ⟨cfg, tgt, ts⟩ now).2 = ⟨cfg, tgt, ts⟩
    ∧ (ActivityTimer.remaining_seconds
        ⟨{ cfg with count_below_zero := true }, tgt,
          ((ActivityTimer.remaining_seconds ⟨cfg, tgt, ts⟩ now).2).last_activity_ts⟩
        now2).1
      = (cfg.length_seconds : ℚ) - (now2 - ts) :=
  ⟨rfl, rfl, rfl⟩

/-- Claim C3, witness: a read at instant 95 leaves the state stored at
timestamp 0 unchanged. -/
theorem C3_remaining_seconds_spec_witness :
    (ActivityTimer.remaining_seconds ⟨cfg90, 7, (0 : ℚ)⟩ 95).2
      = ⟨cfg90, 7, (0 : ℚ)⟩ :=
  (C3_remaining_seconds_spec cfg90 7 0 95 100 (by norm_num)).2.1

/-- Claim C4, counterexample: at clicked = target = 0 the four-step
reference algorithm (step 1: equality) answers true while
hwnd_is_target_or_child answers false, so the two differ as stated over
all handle pairs. -/
theorem C4_reference_counterexample :
    hwnd_is_target_or_child envC4 10 0 0 = false ∧
    belongsToTargetRef envC4 10 0 0 = true := by decide

/-- Claim C4, amended: for nonzero clicked and target handles the hit
tester computes exactly the four-step reference algorithm (equality, then
the parent-chain walk, then the nonzero root-ancestor comparison, else
false). -/
theorem C4_tester_matches_reference (env : WinEnv) (fuel : Nat)
    (clicked target : Nat) (hc : clicked ≠ 0) (ht : target ≠ 0) :
    hwnd_is_target_or_child env fuel clicked target
      = belongsToTargetRef env fuel clicked target := by
  unfold hwnd_is_target_or_child belongsToTargetRef
  rw [if_neg (not_or.mpr ⟨hc, ht⟩)]

/-- Claim C4, witness for the amended theorem at two distinct roots. -/
theorem C4_tester_matches_reference_witness :
    hwnd_is_target_or_child envC4 10 3 5 = belongsToTargetRef envC4 10 3 5 :=
  C4_tester_matches_reference envC4 10 3 5 (by decide) (by decide)

/-- Claim C5: on_key_press notes activity exactly when the target handle
is nonzero and the foreground window equals it; in that case the state is
the noted one, otherwise the event leaves the timer state unchanged. -/
theorem C5_key_press_attribution (s : ActivityTimer) (fg : Nat) (now : ℚ) :
    ((on_key_press s fg now).2 = true ↔
        s.target_hwnd ≠ 0 ∧ fg = s.target_hwnd)
    ∧ (s.target_hwnd ≠ 0 → fg = s.target_hwnd →
        on_key_press s fg now = (s.note_activity now, true))
    ∧ (¬ (s.target_hwnd ≠ 0 ∧ fg = s.target_hwnd) →
        on_key_press s fg now = (s, false)) := by
  unfold on_key_press
  by_cases h0 : s.target_hwnd = 0 <;> by_cases hf : fg = s.target_hwnd <;>
    simp [h0, hf]

/-- Claim C5, witness: a key press with the target focused notes
activity. -/
theorem C5_key_press_attribution_witness :
    on_key_press timer7 7 5 = (timer7.note_activity 5, true) :=
  (C5_key_press_attribution timer7 7 5).2.1 (by decide) rfl

/-- Claim C6: on_click notes activity exactly when the event is a press,
the target handle is nonzero, the point query succeeds with some window,
and the hit tester accepts that window; a raising point query leaves the
state unchanged and reports no activity. -/
theorem C6_click_attribution (env : WinEnv) (fuel : Nat) (s : ActivityTimer)
    (pressed : Bool) (wfp : Option Nat) (now : ℚ) :
    ((on_click env fuel s pressed wfp now).2 = true ↔
      pressed = true ∧ s.target_hwnd ≠ 0 ∧
        ∃ w, wfp = some w ∧
          hwnd_is_target_or_child env fuel w s.target_hwnd = true)
    ∧ (wfp = none → on_click env fuel s pressed wfp now = (s, false)) := by
  unfold on_click
  cases pressed with
  | false => simp
  | true =>
    by_cases h0 : s.target_hwnd = 0
    · simp [h0]
    · cases wfp with
      | none => simp [h0]
      | some w =>
        by_cases hh : hwnd_is_target_or_child env fuel w s.target_hwnd = true
        · simp [h0, hh]
        · simp [h0, hh]

/-- Claim C6, witness: a press whose point query raises is ignored with
the state unchanged. -/
theorem C6_click_attribution_witness :
    on_click envC4 10 timer7 true none 5 = (timer7, false) :=
  (C6_click_attribution envC4 10 timer7 true none 5).2 rfl

/-- Claim C7: with a zero target handle every event (key press or click)
leaves the timer state unchanged and notes nothing, and so does any
sequence of such events. -/
theorem C7_zero_target_suspends (env : WinEnv) (fuel : Nat)
    (s : ActivityTimer) (h : s.target_hwnd = 0) :
    (∀ e now, processEvent env fuel s e now = (s, false))
    ∧ ∀ es, processEvents env fuel s es = s := by
  have step : ∀ e now, processEvent env fuel s e now = (s, false) := by
    intro e now
    cases e with
    | keyPress fg => simp [processEvent, on_key_press, h]
    | click pressed wfp => cases pressed <;> simp [processEvent, on_click, h]
  refine ⟨step, ?_⟩
  intro es
  induction es with
  | nil => rfl
  | cons p rest ih =>
    obtain ⟨e, t⟩ := p
    simp only [processEvents, step e t]
    exact ih

/-- Claim C7, witness: a key press and a click both pass through a
suspended timer without effect. -/
theorem C7_zero_target_suspends_witness :
    processEvents envC4 10 timer0
      [(InputEvent.keyPress 3, 1), (InputEvent.click true (some 4), 2)]
      = timer0 :=
  (C7_zero_target_suspends envC4 10 timer0 rfl).2 _

/-- Claim C8: reset_to_full and note_activity yield identical states at
every clock state and instant. -/
theorem C8_reset_eq_note_activity (s : ActivityTimer) (now : ℚ) :
    s.reset_to_full now = s.note_activity now := rfl

/-- Claim C9: set_target_hwnd stores the handle (0 when falsy) and changes
neither the last-activity timestamp nor the configuration, so the
remaining time is unaffected. -/
theorem C9_set_target_hwnd_frame (s : ActivityTimer) (hwnd : Nat) :
    (s.set_target_hwnd hwnd).target_hwnd = (if hwnd = 0 then 0 else hwnd)
    ∧ (s.set_target_hwnd hwnd).last_activity_ts = s.last_activity_ts
    ∧ (s.set_target_hwnd hwnd).config = s.config
    ∧ ∀ now, ((s.set_target_hwnd hwnd).remaining_seconds now).1
        = (s.remaining_seconds now).1 :=
  ⟨rfl, rfl, rfl, fun _ => rfl⟩

/-- Claim C10: the hit tester answers false whenever either handle is
zero, including clicked = target = 0. -/
theorem C10_zero_handle_false (env : WinEnv) (fuel : Nat)
    (clicked target : Nat) (h : clicked = 0 ∨ target = 0) :
    hwnd_is_target_or_child env fuel clicked target = false := by
  unfold hwnd_is_target_or_child
  rw [if_pos h]

/-- Claim C10, witness: both handles zero. -/
theorem C10_zero_handle_false_witness :
    hwnd_is_target_or_child envC4 10 0 0 = false :=
  C10_zero_handle_false envC4 10 0 0 (Or.inl rfl)
